import Mathlib

/-!
Shallow embedding of the QPG-Playground pipeline (example_extractor.py,
exercise_extractor.py, main.py).  Python strings are modelled as `List Char`,
Python floats used by the relevance scorer are modelled as exact rationals
(all scores are finite sums of 0.2 / 0.4 / 0.3 increments, capped at 1.0),
dict-based records are modelled as structures, and the external generative
collaborator is modelled as a function parameter together with an explicit
call counter.
-/

namespace QPG

/-- Python `str.lower()` restricted to the character ranges the program uses
(ASCII letters are mapped; Gujarati characters are fixed points of `lower`). -/
def pyLower (s : List Char) : List Char := s.map Char.toLower

/-- Python `str.split()[0]`: the first maximal run of non-whitespace characters
(defined whenever the string has a non-whitespace character). -/
def firstWord (s : List Char) : List Char :=
  (s.dropWhile Char.isWhitespace).takeWhile fun c => !c.isWhitespace

/-- Python `str.strip()`: remove leading and trailing whitespace. -/
def pyStrip (s : List Char) : List Char :=
  ((s.dropWhile Char.isWhitespace).reverse.dropWhile Char.isWhitespace).reverse

/-- Python `str.split(',')`: split on every comma, keeping empty parts. -/
def splitOnComma : List Char → List (List Char)
  | [] => [[]]
  | c :: cs =>
    match splitOnComma cs, decide (c = ',') with
    | r, true => [] :: r
    | [], false => [[c]]
    | h :: t, false => (c :: h) :: t

/-- Value of a list of decimal digit characters. -/
def digitsToNat (ds : List Char) : Nat :=
  ds.foldl (fun n c => n * 10 + (c.toNat - '0'.toNat)) 0

/-- Python `int(s)` on an already-stripped string, restricted to optional-sign
decimal literals (Python additionally accepts underscore separators and
non-ASCII decimal digits; those forms do not matter for any claim here, and
every accepted form is still range-checked by the caller). -/
def pyInt (s : List Char) : Option Int :=
  match s with
  | '+' :: rest =>
    if rest ≠ [] ∧ rest.all Char.isDigit then some (digitsToNat rest : Int) else none
  | '-' :: rest =>
    if rest ≠ [] ∧ rest.all Char.isDigit then some (-(digitsToNat rest : Int)) else none
  | _ =>
    if s ≠ [] ∧ s.all Char.isDigit then some (digitsToNat s : Int) else none

/-- Python substring containment `needle in hay`: some suffix of `hay` starts
with `needle` (the empty needle is contained in every string). -/
def containsSub (needle : List Char) : List Char → Bool
  | [] => needle.isEmpty
  | c :: cs => needle.isPrefixOf (c :: cs) || containsSub needle cs

/-- One detected image on a page: the model keeps the single field the
reference resolver and enhancement code read
(`image.get('educational_description', '')`). -/
structure VisualImage where
  educational_description : List Char
deriving DecidableEq

/-- Attempt to match the regex `\d+\.\d+` anchored at the start of `s`,
returning the matched token (greedy digit runs on both sides of the dot). -/
def matchNumAt (s : List Char) : Option (List Char) :=
  let d1 := s.takeWhile Char.isDigit
  if d1.isEmpty then none
  else
    match s.drop d1.length with
    | '.' :: rest2 =>
      let d2 := rest2.takeWhile Char.isDigit
      if d2.isEmpty then none else some (d1 ++ '.' :: d2)
    | _ => none

/-- Python `re.search(r'\d+\.\d+', s)`: the leftmost match of
digits-dot-digits, as used by `_find_matching_visual_description`
(example_extractor.py line 108, exercise_extractor.py line 433). -/
def findNumToken : List Char → Option (List Char)
  | [] => none
  | c :: cs =>
    match matchNumAt (c :: cs) with
    | some t => some t
    | none => findNumToken cs

/-- Exact-reference predicate of Method 1: the candidate's description must
contain both the numeric token and the reference's leading type word as
substrings (example_extractor.py line 115, exercise_extractor.py line 440). -/
def exactRefPred (ref_number ref_type : List Char) (image : VisualImage) : Bool :=
  containsSub ref_number image.educational_description &&
    containsSub ref_type image.educational_description

/-- Method 1 of `_find_matching_visual_description` (identical source text in
example_extractor.py lines 106-116 and exercise_extractor.py lines 431-441):
if the reference is non-empty and contains a `\d+\.\d+` token, return the
first candidate whose description contains both the token and the reference's
leading word. -/
def exactRefMatch (visual_reference : List Char) (page_images : List VisualImage) :
    Option (List Char) :=
  if visual_reference.isEmpty then none
  else
    match findNumToken visual_reference with
    | some ref_number =>
      page_images.findSome? fun image =>
        if exactRefPred ref_number (firstWord visual_reference) image then
          some image.educational_description
        else none
    | none => none

/-- Keyword-fallback synonym table of the example extractor
(example_extractor.py lines 121-125). -/
def typeKeywordsExample : List (List Char × List (List Char)) :=
  [("કોષ્ટક".data, ["કોષ્ટક".data, "table".data]),
   ("આકૃતિ".data, ["આકૃતિ".data, "આલેખ".data, "graph".data]),
   ("ચિત્ર".data, ["ચિત્ર".data, "diagram".data, "figure".data])]

/-- Keyword-fallback synonym table of the exercise extractor
(exercise_extractor.py lines 446-450). -/
def typeKeywordsExercise : List (List Char × List (List Char)) :=
  [("આકૃતિ".data, ["આકૃતિ".data, "figure".data, "diagram".data]),
   ("આલેખ".data, ["આલેખ".data, "graph".data, "chart".data]),
   ("કોષ્ટક".data, ["કોષ્ટક".data, "table".data])]

/-- Method 2 of `_find_matching_visual_description` (identical loop in both
extractors, parameterised only by the synonym table literal): look the
lower-cased visual type up in the table and return the first candidate whose
lower-cased description contains any synonym. -/
def keywordFallback (table : List (List Char × List (List Char)))
    (visual_type : List Char) (page_images : List VisualImage) : Option (List Char) :=
  match table.lookup (pyLower visual_type) with
  | some keywords =>
    page_images.findSome? fun image =>
      if keywords.any fun k => containsSub k (pyLower image.educational_description) then
        some image.educational_description
      else none
  | none => none

/-- `GSEBExampleExtractor._find_matching_visual_description`
(example_extractor.py lines 102-135). -/
def findMatchingVisualDescriptionExample (visual_reference visual_type : List Char)
    (page_images : List VisualImage) : Option (List Char) :=
  match exactRefMatch visual_reference page_images with
  | some d => some d
  | none => keywordFallback typeKeywordsExample visual_type page_images

/-- `GSEBExerciseExtractor._find_matching_visual_description`
(exercise_extractor.py lines 417-460). -/
def findMatchingVisualDescriptionExercise (visual_reference visual_type : List Char)
    (page_images : List VisualImage) : Option (List Char) :=
  match exactRefMatch visual_reference page_images with
  | some d => some d
  | none => keywordFallback typeKeywordsExercise visual_type page_images

/-- Sentinel description for unresolved visual mentions
(example_extractor.py line 160, exercise_extractor.py line 407). -/
def sentinelDescription : List Char := "વર્ણન ઉપલબ્ધ નથી".data

/-- A visual mention inside a question record: the fields read and written by
the enhancement code (`reference`, `type`, `full_description`); the remaining
free-text fields are never inspected by the modelled operations. -/
structure VisualMention where
  reference : List Char
  vtype : List Char
  full_description : Option (List Char)
deriving DecidableEq

/-- A question record, reduced to the one field the enhancement code touches. -/
structure QuestionRecord where
  mentioned_visuals : List VisualMention
deriving DecidableEq

/-- A page record with the fields the extraction loops read. -/
structure Page where
  page_number : Nat
  text : List Char
  images : List VisualImage
deriving DecidableEq

/-- Per-mention enhancement step of the example extractor
(example_extractor.py lines 147-161): resolve the mention and store either
the matched description or the sentinel. -/
def enhanceMentionExample (page_images : List VisualImage) (visual : VisualMention) :
    VisualMention :=
  match findMatchingVisualDescriptionExample visual.reference visual.vtype page_images with
  | some matching_desc => ⟨visual.reference, visual.vtype, some matching_desc⟩
  | none => ⟨visual.reference, visual.vtype, some sentinelDescription⟩

/-- `GSEBExampleExtractor._enhance_examples_with_visual_content`
(example_extractor.py lines 137-163): if the page has no detected images the
records are returned untouched, otherwise every mention is resolved. -/
def enhanceExamplesWithVisualContent (examples : List QuestionRecord) (page_data : Page) :
    List QuestionRecord :=
  if page_data.images.isEmpty then examples
  else
    examples.map fun ex =>
      ⟨ex.mentioned_visuals.map (enhanceMentionExample page_data.images)⟩

/-- Per-mention enhancement step of the exercise extractor
(exercise_extractor.py lines 390-408). -/
def enhanceMentionExercise (page_images : List VisualImage) (visual : VisualMention) :
    VisualMention :=
  match findMatchingVisualDescriptionExercise visual.reference visual.vtype page_images with
  | some matching_desc => ⟨visual.reference, visual.vtype, some matching_desc⟩
  | none => ⟨visual.reference, visual.vtype, some sentinelDescription⟩

/-- `GSEBExerciseExtractor._enhance_exercises_with_visual_content`
(exercise_extractor.py lines 358-412); the defensive branches for non-dict
records and non-list mention fields are identities in this typed model. -/
def enhanceExercisesWithVisualContent (exercises : List QuestionRecord) (page_data : Page) :
    List QuestionRecord :=
  if page_data.images.isEmpty then exercises
  else
    exercises.map fun exercise =>
      ⟨exercise.mentioned_visuals.map (enhanceMentionExercise page_data.images)⟩

/-- The fixed keyword list of `_calculate_image_relevance`
(example_extractor.py lines 326-329). -/
def mathKeywords : List (List Char) :=
  ["સમીકરણ".data, "કોષ્ટક".data, "આકૃતિ".data, "આલેખ".data, "ગ્રાફ".data,
   "રેખા".data, "બિંદુ".data, "ઉકેલ".data, "હલ".data, "સંખ્યા".data,
   "મૂલ્ય".data, "છેદ".data, "intersection".data, "coordinate".data]

/-- The four alternatives of the capture group in the reference regex
`(કોષ્ટક|આકૃતિ|ચિત્ર|આલેખ)\s*\d+\.\d+` (example_extractor.py line 342). -/
def refTypeWords : List (List Char) :=
  ["કોષ્ટક".data, "આકૃતિ".data, "ચિત્ર".data, "આલેખ".data]

/-- Attempt to match `(કોષ્ટક|આકૃતિ|ચિત્ર|આલેખ)\s*\d+\.\d+` anchored at the
start of `s`; on success return the captured group (the type word alone, as
Python `re.findall` does for a pattern with one group) and the remainder of
the string after the whole match. -/
def matchRefAt (s : List Char) : Option (List Char × List Char) :=
  match refTypeWords.find? fun w => w.isPrefixOf s with
  | some w =>
    let rest := (s.drop w.length).dropWhile Char.isWhitespace
    let d1 := rest.takeWhile Char.isDigit
    if d1.isEmpty then none
    else
      match rest.drop d1.length with
      | '.' :: rest2 =>
        let d2 := rest2.takeWhile Char.isDigit
        if d2.isEmpty then none else some (w, rest2.drop d2.length)
      | _ => none
  | none => none

/-- Fuel-indexed scan for `re.findall` over the reference pattern: try each
start position from the left, and resume after the end of every match
(non-overlapping).  The fuel is the remaining string length, which bounds the
number of scan steps since every step consumes at least one character. -/
def findAllRefsAux : Nat → List Char → List (List Char)
  | 0, _ => []
  | _ + 1, [] => []
  | fuel + 1, c :: cs =>
    match matchRefAt (c :: cs) with
    | some (w, rest) => w :: findAllRefsAux fuel rest
    | none => findAllRefsAux fuel cs

/-- Python `re.findall(r'(કોષ્ટક|આકૃતિ|ચિત્ર|આલેખ)\s*\d+\.\d+', s)`
(example_extractor.py lines 344-345): the list of captured type words of all
non-overlapping matches, left to right. -/
def findAllRefs (s : List Char) : List (List Char) := findAllRefsAux s.length s

/-- Attempt to match the equation regex
`\d*[xy]\s*[+\-]\s*\d*[xy]\s*=\s*\d+` anchored at the start of `s`
(example_extractor.py line 351).  Both operands must end in a variable `x` or
`y`; the pattern is deterministic because no quantified class overlaps the
literal that follows it. -/
def matchEqAt (s : List Char) : Bool :=
  match s.dropWhile Char.isDigit with
  | v1 :: r1 =>
    (v1 = 'x' || v1 = 'y') &&
      (match r1.dropWhile Char.isWhitespace with
       | op :: r2 =>
         (op = '+' || op = '-') &&
           (match (r2.dropWhile Char.isWhitespace).dropWhile Char.isDigit with
            | v2 :: r3 =>
              (v2 = 'x' || v2 = 'y') &&
                (match r3.dropWhile Char.isWhitespace with
                 | '=' :: r4 =>
                   (match r4.dropWhile Char.isWhitespace with
                    | d :: _ => d.isDigit
                    | [] => false)
                 | _ => false)
            | [] => false)
       | [] => false)
  | [] => false

/-- Python `re.search` over the equation pattern: some start position (i.e.
some suffix of the string) matches. -/
def hasEquationPattern (s : List Char) : Bool := s.tails.any matchEqAt

/-- Cardinality of `set(a) & set(b)` for lists of strings. -/
def interCard (a b : List (List Char)) : Nat :=
  (a.dedup.filter fun x => x ∈ b).length

/-- `GSEBExampleExtractor._calculate_image_relevance`
(example_extractor.py lines 322-355).  Floats are modelled as exact
rationals: 0.2 per keyword present in both lower-cased texts, 0.4 per element
of the intersection of the `findall` results (the captured type words), a
0.3 bonus when both texts contain the equation pattern, capped at 1.0.  The
`obj_description` parameter is accepted and ignored, as in the source. -/
def calculateImageRelevance (example_text image_desc obj_description : List Char) : ℚ :=
  let example_lower := pyLower example_text
  let image_desc_lower := pyLower image_desc
  let score : ℚ := mathKeywords.foldl
    (fun score keyword =>
      if containsSub keyword example_lower && containsSub keyword image_desc_lower then
        score + 1/5
      else score) 0
  let common_refs := interCard (findAllRefs example_text) (findAllRefs image_desc)
  let score := score + (common_refs : ℚ) * (2/5)
  let score :=
    if hasEquationPattern example_text && hasEquationPattern image_desc then score + 3/10
    else score
  min score 1

/-- Keyword component of the relevance score, written independently of the
fold in `calculateImageRelevance`: 0.2 per keyword contained in both
lower-cased texts. -/
def keywordComponent (example_text image_desc : List Char) : ℚ :=
  ((mathKeywords.filter fun k =>
      containsSub k (pyLower example_text) && containsSub k (pyLower image_desc)).length : ℚ)
    * (1/5)

/-- Structured-reference component of the relevance score: 0.4 per element of
the set intersection of the captured reference type words. -/
def refComponent (example_text image_desc : List Char) : ℚ :=
  (interCard (findAllRefs example_text) (findAllRefs image_desc) : ℚ) * (2/5)

/-- Keyword test of the first branch of `_classify_visual_type`
(example_extractor.py line 362). -/
def tableTest (image_description : List Char) : Bool :=
  containsSub "કોષ્ટક".data (pyLower image_description) ||
    containsSub "table".data (pyLower image_description)

/-- Keyword test of the second branch (example_extractor.py line 364). -/
def figureGraphTest (image_description : List Char) : Bool :=
  containsSub "આકૃતિ".data (pyLower image_description) ||
    containsSub "આલેખ".data (pyLower image_description) ||
    containsSub "graph".data (pyLower image_description)

/-- Keyword test of the third branch (example_extractor.py line 366). -/
def diagramTest (image_description : List Char) : Bool :=
  containsSub "ચિત્ર".data (pyLower image_description) ||
    containsSub "diagram".data (pyLower image_description)

/-- Keyword test of the fourth branch (example_extractor.py line 368). -/
def lineTest (image_description : List Char) : Bool :=
  containsSub "રેખા".data (pyLower image_description) ||
    containsSub "line".data (pyLower image_description)

/-- `GSEBExampleExtractor._classify_visual_type`
(example_extractor.py lines 357-371). -/
def classifyVisualType (image_description : List Char) : List Char :=
  if tableTest image_description then "કોષ્ટક".data
  else if figureGraphTest image_description then "આકૃતિ/આલેખ".data
  else if diagramTest image_description then "ચિત્ર".data
  else if lineTest image_description then "રેખાકૃતિ".data
  else "આકૃતિ".data

/-- The five category strings `_classify_visual_type` can return. -/
def visualCategories : List (List Char) :=
  ["કોષ્ટક".data, "આકૃતિ/આલેખ".data, "ચિત્ર".data, "રેખાકૃતિ".data, "આકૃતિ".data]

/-- Lexical indicators required by the example extraction loop
(example_extractor.py line 63). -/
def exampleIndicators : List (List Char) :=
  ["ઉદાહરણ".data, "Example".data, "ઉકેલ".data, "હલ".data]

/-- Loop body of `extract_examples_from_chapter` for one page
(example_extractor.py lines 54-80).  The generative collaborator
`_extract_examples_with_ai` is an external service; it is modelled as the
function argument `aiExtract`, which receives the page text and the current
`gemini_api` counter and returns the validated record list together with the
updated counter. -/
def processExamplePage (aiExtract : List Char → Nat → List QuestionRecord × Nat)
    (page : Page) (calls : Nat) : List QuestionRecord × Nat :=
  if page.text.length < 100 then ([], calls)
  else if !(exampleIndicators.any fun ind => containsSub ind page.text) then ([], calls)
  else
    let res := aiExtract page.text calls
    if res.1.isEmpty then ([], res.2)
    else (enhanceExamplesWithVisualContent res.1 page, res.2)

/-- Loop body of `extract_exercises_from_chapter` for one page
(exercise_extractor.py lines 97-131); the indicator prefilter is commented
out in the source, so only the length check guards the collaborator call. -/
def processExercisePage (aiExtract : List Char → Nat → List QuestionRecord × Nat)
    (page : Page) (calls : Nat) : List QuestionRecord × Nat :=
  if page.text.length < 100 then ([], calls)
  else
    let res := aiExtract page.text calls
    if res.1.isEmpty then ([], res.2)
    else (enhanceExercisesWithVisualContent res.1 page, res.2)

/-- Sentinel page summary (main.py line 593). -/
def sentinelSummary : List Char := "સારાંશ ઉપલબ્ધ નથી".data

/-- Fixed error chapter summary returned when no valid page summary exists
(main.py line 625). -/
def errorChapterSummary : List Char :=
  "અધ્યાય વિશ્લેષણમાં ભૂલ - કોઈ સારાંશ ઉપલબ્ધ નથી".data

/-- A page as seen by `analyze_chapter`: its number and its optional summary
(`none` models a page dict without the `page_summary` key). -/
structure SummaryPage where
  page_number : Nat
  page_summary : Option (List Char)
deriving DecidableEq

/-- `analyze_chapter` (main.py lines 606-665).  The generative collaborator
is the function argument `ai` applied to the joined summaries text (the
prompt template around it is configuration); `ai` returning `none` models an
exception raised by the collaborator call, which the source catches and turns
into the short error summary without incrementing the counter. -/
def analyzeChapter (ai : List Char → Option (List Char)) (pages_data : List SummaryPage)
    (calls : Nat) : List Char × Nat :=
  let page_summaries := pages_data.filterMap fun page =>
    match page.page_summary with
    | some s =>
      if s ≠ sentinelSummary then
        some ("પાનું ".data ++ (Nat.repr page.page_number).data ++ ": ".data ++ s)
      else none
    | none => none
  if page_summaries.isEmpty then (errorChapterSummary, calls)
  else
    match ai (List.intercalate "\n\n".data page_summaries) with
    | some response => (response, calls + 1)
    | none => ("અધ્યાય વિશ્લેષણમાં ભૂલ".data, calls)

/-- Accumulator loop of the topic parsing in `assign_topics_to_pages`
(main.py lines 746-757): for each comma-separated part, strip it, parse it as
an integer, and append it when it is in range and not already present;
parts that fail to parse are skipped. -/
def topicFold (parts : List (List Char)) (topicCount : Nat) (init : List Int) : List Int :=
  parts.foldl
    (fun topic_numbers part =>
      match pyInt (pyStrip part) with
      | some num =>
        if 1 ≤ num ∧ num ≤ (topicCount : Int) ∧ num ∉ topic_numbers then
          topic_numbers ++ [num]
        else topic_numbers
      | none => topic_numbers) init

/-- Topic-number list stored for one page by `assign_topics_to_pages`
(main.py lines 746-759), as a function of the collaborator response text and
the topic list. -/
def parseTopicNumbers (response_text : List Char) (topics_list : List (List Char)) :
    List Int :=
  topicFold (splitOnComma response_text) topics_list.length []

/-! ### Helper lemmas -/

/-- A `findSome?` whose function is a guarded projection is a `find?`
followed by `Option.map`. -/
theorem findSome_guard {α β : Type} (p : α → Bool) (f : α → β) :
    ∀ l : List α,
      (l.findSome? fun a => if p a then some (f a) else none) = (l.find? p).map f
  | [] => rfl
  | a :: t => by
    by_cases h : p a = true <;>
      simp [List.findSome?_cons, List.find?_cons, h, findSome_guard p f t]

/-- Whatever a guarded-projection `findSome?` returns is the projection of a
list member satisfying the guard. -/
theorem findSome_guard_mem {α β : Type} {p : α → Bool} {f : α → β} {l : List α} {b : β}
    (h : (l.findSome? fun a => if p a then some (f a) else none) = some b) :
    ∃ a ∈ l, b = f a := by
  rw [findSome_guard] at h
  rcases Option.map_eq_some'.1 h with ⟨a, ha, rfl⟩
  exact ⟨a, List.mem_of_find?_eq_some ha, rfl⟩

/-- A successful exact reference match returns the description of one of the
candidates. -/
theorem exactRefMatch_mem {visual_reference : List Char} {page_images : List VisualImage}
    {d : List Char} (h : exactRefMatch visual_reference page_images = some d) :
    ∃ img ∈ page_images, d = img.educational_description := by
  unfold exactRefMatch at h
  split at h
  · exact absurd h (by simp)
  · split at h
    · exact findSome_guard_mem h
    · exact absurd h (by simp)

/-- A successful keyword fallback returns the description of one of the
candidates, whichever synonym table is used. -/
theorem keywordFallback_mem {table : List (List Char × List (List Char))}
    {visual_type : List Char} {page_images : List VisualImage} {d : List Char}
    (h : keywordFallback table visual_type page_images = some d) :
    ∃ img ∈ page_images, d = img.educational_description := by
  unfold keywordFallback at h
  split at h
  · exact findSome_guard_mem h
  · exact absurd h (by simp)

/-- The example-variant resolver only ever returns a candidate's description. -/
theorem findMatchingExample_mem {visual_reference visual_type : List Char}
    {page_images : List VisualImage} {d : List Char}
    (h : findMatchingVisualDescriptionExample visual_reference visual_type page_images =
      some d) :
    ∃ img ∈ page_images, d = img.educational_description := by
  unfold findMatchingVisualDescriptionExample at h
  split at h
  · cases h
    exact exactRefMatch_mem (by assumption)
  · exact keywordFallback_mem h

/-- The exercise-variant resolver only ever returns a candidate's description. -/
theorem findMatchingExercise_mem {visual_reference visual_type : List Char}
    {page_images : List VisualImage} {d : List Char}
    (h : findMatchingVisualDescriptionExercise visual_reference visual_type page_images =
      some d) :
    ∃ img ∈ page_images, d = img.educational_description := by
  unfold findMatchingVisualDescriptionExercise at h
  split at h
  · cases h
    exact exactRefMatch_mem (by assumption)
  · exact keywordFallback_mem h

/-! ### C1 -/

/-- C1: whenever the reference yields a numeric token `N.M` (first
digits-dot-digits occurrence) and some candidate's description contains both
`N.M` and the reference's leading word as substrings, both reference
resolvers return the description of the first such candidate in original
order — the keyword-fallback table is never consulted, so a different
candidate matching only by keyword (even an earlier one) cannot win. -/
theorem C1_exact_match_priority (visual_reference visual_type : List Char)
    (page_images : List VisualImage) (ref_number : List Char)
    (h1 : findNumToken visual_reference = some ref_number)
    (h2 : ∃ image ∈ page_images,
      exactRefPred ref_number (firstWord visual_reference) image = true) :
    ∃ image ∈ page_images,
      page_images.find? (exactRefPred ref_number (firstWord visual_reference)) =
          some image ∧
        findMatchingVisualDescriptionExample visual_reference visual_type page_images =
          some image.educational_description ∧
        findMatchingVisualDescriptionExercise visual_reference visual_type page_images =
          some image.educational_description := by
  have hfind : (page_images.find?
      (exactRefPred ref_number (firstWord visual_reference))).isSome := by
    rw [List.find?_isSome]
    exact h2
  obtain ⟨img0, himg0⟩ := Option.isSome_iff_exists.1 hfind
  have hne : visual_reference.isEmpty = false := by
    cases visual_reference with
    | nil => exact absurd h1 (by simp [findNumToken])
    | cons c cs => rfl
  have hexact : exactRefMatch visual_reference page_images =
      some img0.educational_description := by
    unfold exactRefMatch
    rw [hne, h1]
    simp only [Bool.false_eq_true, if_false]
    rw [findSome_guard (exactRefPred ref_number (firstWord visual_reference))
      VisualImage.educational_description page_images, himg0]
    rfl
  refine ⟨img0, List.mem_of_find?_eq_some himg0, himg0, ?_, ?_⟩
  · unfold findMatchingVisualDescriptionExample
    rw [hexact]
  · unfold findMatchingVisualDescriptionExercise
    rw [hexact]

/-- Witness for C1 at scenario B of the specification: reference
`"કોષ્ટક 3.1"`, type `"કોષ્ટક"`, one candidate matching only by the keyword
`"table"` listed first and one exact candidate listed second — the resolver
returns the exact candidate. -/
theorem C1_exact_match_priority_witness :
    ∃ image ∈ ([⟨"a table of values".data⟩, ⟨"કોષ્ટક 3.1 માહિતી".data⟩] :
        List VisualImage),
      ([⟨"a table of values".data⟩, ⟨"કોષ્ટક 3.1 માહિતી".data⟩] :
          List VisualImage).find?
          (exactRefPred "3.1".data (firstWord "કોષ્ટક 3.1".data)) = some image ∧
        findMatchingVisualDescriptionExample "કોષ્ટક 3.1".data "કોષ્ટક".data
          [⟨"a table of values".data⟩, ⟨"કોષ્ટક 3.1 માહિતી".data⟩] =
          some image.educational_description ∧
        findMatchingVisualDescriptionExercise "કોષ્ટક 3.1".data "કોષ્ટક".data
          [⟨"a table of values".data⟩, ⟨"કોષ્ટક 3.1 માહિતી".data⟩] =
          some image.educational_description :=
  C1_exact_match_priority "કોષ્ટક 3.1".data "કોષ્ટક".data
    [⟨"a table of values".data⟩, ⟨"કોષ્ટક 3.1 માહિતી".data⟩] "3.1".data
    (by decide) (by decide)

/-! ### Relevance-score characterisation -/

/-- The keyword fold of `_calculate_image_relevance` adds `1/5` once per
keyword contained in both texts. -/
theorem keyword_foldl (pl dl : List Char) :
    ∀ (l : List (List Char)) (init : ℚ),
      l.foldl
          (fun score k => if containsSub k pl && containsSub k dl then score + 1/5
            else score) init =
        init + ((l.filter fun k => containsSub k pl && containsSub k dl).length : ℚ) * (1/5)
  | [], _ => by simp
  | a :: t, init => by
    by_cases h : (containsSub a pl && containsSub a dl) = true
    · simp only [List.foldl_cons, List.filter_cons, h, if_true, List.length_cons]
      rw [keyword_foldl pl dl t]
      push_cast
      ring
    · simp only [List.foldl_cons, List.filter_cons, h, if_false]
      rw [keyword_foldl pl dl t]
      simp

/-- Closed form of `_calculate_image_relevance`: the capped sum of the
keyword component, the structured-reference component and the equation
bonus. -/
theorem calculateImageRelevance_eq (p d o : List Char) :
    calculateImageRelevance p d o =
      min (keywordComponent p d + refComponent p d +
          (if hasEquationPattern p && hasEquationPattern d then (3/10 : ℚ) else 0)) 1 := by
  simp only [calculateImageRelevance, keywordComponent, refComponent]
  rw [keyword_foldl]
  split <;>
    · congr 1
      ring

/-! ### C2 -/

/-- C2 (failing-input evaluation): the structured-reference component does
not intersect full `<type-word> <int>.<int>` tokens.  `re.findall` with a
capture group returns only the captured type words, so the passage
`"કોષ્ટક 3.1"` and the description `"કોષ્ટક 9.9"`, whose full reference
tokens differ, still share the extracted element `"કોષ્ટક"` and score
0.2 (shared keyword) + 0.4 (reference component) = 0.6, where the claimed
full-token intersection would leave only 0.2. -/
theorem C2_type_word_intersection_eval :
    findAllRefs "કોષ્ટક 3.1".data = ["કોષ્ટક".data] ∧
      findAllRefs "કોષ્ટક 9.9".data = ["કોષ્ટક".data] ∧
      calculateImageRelevance "કોષ્ટક 3.1".data "કોષ્ટક 9.9".data [] = 3/5 := by
  refine ⟨by decide, by decide, ?_⟩
  rw [calculateImageRelevance_eq]
  have h1 : (mathKeywords.filter fun k =>
      containsSub k (pyLower "કોષ્ટક 3.1".data) &&
        containsSub k (pyLower "કોષ્ટક 9.9".data)).length = 1 := by decide
  have h2 : interCard (findAllRefs "કોષ્ટક 3.1".data) (findAllRefs "કોષ્ટક 9.9".data) = 1 := by
    decide
  have h3 : hasEquationPattern "કોષ્ટક 3.1".data = false := by decide
  unfold keywordComponent refComponent
  rw [h1, h2, h3]
  norm_num

/-! ### C3 -/

/-- C3 counterexample: the claimed trigger string `2x+3=7` does not match the
code's equation pattern `\d*[xy]\s*[+\-]\s*\d*[xy]\s*=\s*\d+` (the second
operand must end in a variable), so a passage and description both equal to
`"2x+3=7"` receive no 0.3 bonus and score 0. -/
theorem C3_counterexample :
    hasEquationPattern "2x+3=7".data = false ∧
      calculateImageRelevance "2x+3=7".data "2x+3=7".data [] = 0 := by
  refine ⟨by decide, ?_⟩
  rw [calculateImageRelevance_eq]
  have h1 : (mathKeywords.filter fun k =>
      containsSub k (pyLower "2x+3=7".data) &&
        containsSub k (pyLower "2x+3=7".data)).length = 0 := by decide
  have h2 : interCard (findAllRefs "2x+3=7".data) (findAllRefs "2x+3=7".data) = 0 := by decide
  have h3 : hasEquationPattern "2x+3=7".data = false := by decide
  unfold keywordComponent refComponent
  rw [h1, h2, h3]
  norm_num

/-- C3 amended: the relevance score carries a flat +0.3 bonus exactly when
both passage and description match the two-operand pattern
`\d*[xy]\s*[+\-]\s*\d*[xy]\s*=\s*\d+` (optional digits, a variable x or y, a
plus or minus, optional digits, a variable x or y, an equals sign, digits);
`2x+3y=7` triggers it, and two texts equal to `"2x+3y=7"` score exactly
0.3, while a single-variable form such as `2x+3=7` does not trigger it. -/
theorem C3_equation_bonus_characterisation :
    (∀ p d o : List Char,
        calculateImageRelevance p d o =
          min (keywordComponent p d + refComponent p d +
              (if hasEquationPattern p && hasEquationPattern d then (3/10 : ℚ) else 0)) 1) ∧
      hasEquationPattern "2x+3y=7".data = true ∧
      calculateImageRelevance "2x+3y=7".data "2x+3y=7".data [] = 3/10 := by
  refine ⟨calculateImageRelevance_eq, by decide, ?_⟩
  rw [calculateImageRelevance_eq]
  have h1 : (mathKeywords.filter fun k =>
      containsSub k (pyLower "2x+3y=7".data) &&
        containsSub k (pyLower "2x+3y=7".data)).length = 0 := by decide
  have h2 : interCard (findAllRefs "2x+3y=7".data) (findAllRefs "2x+3y=7".data) = 0 := by
    decide
  have h3 : hasEquationPattern "2x+3y=7".data = true := by decide
  unfold keywordComponent refComponent
  rw [h1, h2, h3]
  norm_num

/-! ### C8 -/

/-- C8: for every pair of input strings (and any object description), the
relevance score lies in the closed interval `[0, 1]` — it is never negative
and the final cap means it never exceeds 1 no matter how many keyword,
reference or equation signals match. -/
theorem C8_relevance_score_bounds (example_text image_desc obj_description : List Char) :
    0 ≤ calculateImageRelevance example_text image_desc obj_description ∧
      calculateImageRelevance example_text image_desc obj_description ≤ 1 := by
  rw [calculateImageRelevance_eq]
  constructor
  · refine le_min ?_ zero_le_one
    have h1 : (0 : ℚ) ≤ keywordComponent example_text image_desc := by
      unfold keywordComponent
      positivity
    have h2 : (0 : ℚ) ≤ refComponent example_text image_desc := by
      unfold refComponent
      positivity
    have h3 : (0 : ℚ) ≤
        (if hasEquationPattern example_text && hasEquationPattern image_desc
          then (3/10 : ℚ) else 0) := by
      split <;> norm_num
    linarith
  · exact min_le_right _ _

/-! ### C9 -/

/-- C9: the visual classifier is total — every input string is mapped to
exactly one of the five category strings, picked by first-match priority
table-keywords > figure/graph-keywords > diagram-keywords > line-keywords,
with the generic category `"આકૃતિ"` returned exactly when no keyword list
matches (all tests are case-insensitive substring tests). -/
theorem C9_classifier_total_first_match (image_description : List Char) :
    classifyVisualType image_description ∈ visualCategories ∧
      (classifyVisualType image_description = "કોષ્ટક".data ↔
        tableTest image_description = true) ∧
      (classifyVisualType image_description = "આકૃતિ/આલેખ".data ↔
        (tableTest image_description = false ∧ figureGraphTest image_description = true)) ∧
      (classifyVisualType image_description = "ચિત્ર".data ↔
        (tableTest image_description = false ∧ figureGraphTest image_description = false ∧
          diagramTest image_description = true)) ∧
      (classifyVisualType image_description = "રેખાકૃતિ".data ↔
        (tableTest image_description = false ∧ figureGraphTest image_description = false ∧
          diagramTest image_description = false ∧ lineTest image_description = true)) ∧
      (classifyVisualType image_description = "આકૃતિ".data ↔
        (tableTest image_description = false ∧ figureGraphTest image_description = false ∧
          diagramTest image_description = false ∧ lineTest image_description = false)) := by
  cases h1 : tableTest image_description <;>
    cases h2 : figureGraphTest image_description <;>
      cases h3 : diagramTest image_description <;>
        cases h4 : lineTest image_description <;>
          simp [classifyVisualType, visualCategories, h1, h2, h3, h4]

/-! ### C10 -/

/-- C10 counterexample: the two resolvers differ — for an empty reference,
visual type `"ચિત્ર"` and a single candidate described as
`"a diagram here"`, the example variant resolves through its `ચિત્ર` synonym
list while the exercise variant's table has no `ચિત્ર` key and returns
nothing. -/
theorem C10_counterexample :
    findMatchingVisualDescriptionExample [] "ચિત્ર".data [⟨"a diagram here".data⟩] ≠
      findMatchingVisualDescriptionExercise [] "ચિત્ર".data [⟨"a diagram here".data⟩] := by
  decide

/-- C10 amended: the two resolver implementations are not extensionally
equal (their keyword-fallback tables admit different visual-type keys —
`ચિત્ર` only in the example variant, `આલેખ` only in the exercise variant —
and different synonyms for `આકૃતિ`), but they agree whenever the exact
structured match succeeds, and on every input whose lower-cased visual type
is `કોષ્ટક`, where both tables carry the identical synonym list. -/
theorem C10_resolvers_agree_on_exact_or_table (visual_reference visual_type : List Char)
    (page_images : List VisualImage)
    (h : (exactRefMatch visual_reference page_images).isSome = true ∨
      pyLower visual_type = "કોષ્ટક".data) :
    findMatchingVisualDescriptionExample visual_reference visual_type page_images =
      findMatchingVisualDescriptionExercise visual_reference visual_type page_images := by
  unfold findMatchingVisualDescriptionExample findMatchingVisualDescriptionExercise
  cases hx : exactRefMatch visual_reference page_images with
  | some d => rfl
  | none =>
    rcases h with h | h
    · rw [hx] at h
      exact absurd h (by simp)
    · simp only []
      unfold keywordFallback
      rw [h]
      have he1 : typeKeywordsExample.lookup "કોષ્ટક".data =
          some ["કોષ્ટક".data, "table".data] := by decide
      have he2 : typeKeywordsExercise.lookup "કોષ્ટક".data =
          some ["કોષ્ટક".data, "table".data] := by decide
      rw [he1, he2]

/-- Witness for the amended C10: on visual type `"કોષ્ટક"` (here with a
reference that yields no numeric token) the two resolvers agree. -/
theorem C10_resolvers_agree_witness :
    findMatchingVisualDescriptionExample "no token".data "કોષ્ટક".data
        [⟨"a big table".data⟩] =
      findMatchingVisualDescriptionExercise "no token".data "કોષ્ટક".data
        [⟨"a big table".data⟩] :=
  C10_resolvers_agree_on_exact_or_table "no token".data "કોષ્ટક".data
    [⟨"a big table".data⟩] (Or.inr (by decide))

/-! ### C4 -/

/-- Enhancing one mention (example variant) always stores a non-null
description: the sentinel or one of the candidates' descriptions. -/
theorem enhanceMentionExample_spec (page_images : List VisualImage) (v : VisualMention) :
    ∃ s, (enhanceMentionExample page_images v).full_description = some s ∧
      (s = sentinelDescription ∨
        ∃ img ∈ page_images, s = img.educational_description) := by
  unfold enhanceMentionExample
  cases hr : findMatchingVisualDescriptionExample v.reference v.vtype page_images with
  | some d => exact ⟨d, rfl, Or.inr (findMatchingExample_mem hr)⟩
  | none => exact ⟨sentinelDescription, rfl, Or.inl rfl⟩

/-- Enhancing one mention (exercise variant) always stores a non-null
description: the sentinel or one of the candidates' descriptions. -/
theorem enhanceMentionExercise_spec (page_images : List VisualImage) (v : VisualMention) :
    ∃ s, (enhanceMentionExercise page_images v).full_description = some s ∧
      (s = sentinelDescription ∨
        ∃ img ∈ page_images, s = img.educational_description) := by
  unfold enhanceMentionExercise
  cases hr : findMatchingVisualDescriptionExercise v.reference v.vtype page_images with
  | some d => exact ⟨d, rfl, Or.inr (findMatchingExercise_mem hr)⟩
  | none => exact ⟨sentinelDescription, rfl, Or.inl rfl⟩

/-- C4 counterexample: on a page whose detected-image list is empty the
enhancement returns the records untouched, so a mention whose
`full_description` is absent stays absent — the claimed invariant fails for
empty-image pages. -/
theorem C4_counterexample :
    ¬ ∀ ex ∈ enhanceExamplesWithVisualContent
        [⟨[⟨"આકૃતિ 3.1".data, "આકૃતિ".data, none⟩]⟩] ⟨5, [], []⟩,
        ∀ v ∈ ex.mentioned_visuals, v.full_description ≠ none := by
  decide

/-- C4 amended: after visual enhancement, every mention of every returned
record carries a non-null `full_description` — either the sentinel
`"વર્ણન ઉપલબ્ધ નથી"` or the description of one of the page's detected
images — provided the page's detected-image list is non-empty; a page with
an empty image list returns its records unchanged.  This holds for both the
example and the exercise variant. -/
theorem C4_enhancement_nonnull (examples exercises : List QuestionRecord)
    (page_data : Page) (h : page_data.images ≠ []) :
    (∀ ex ∈ enhanceExamplesWithVisualContent examples page_data,
        ∀ v ∈ ex.mentioned_visuals, ∃ s, v.full_description = some s ∧
          (s = sentinelDescription ∨
            ∃ img ∈ page_data.images, s = img.educational_description)) ∧
      (∀ ex ∈ enhanceExercisesWithVisualContent exercises page_data,
        ∀ v ∈ ex.mentioned_visuals, ∃ s, v.full_description = some s ∧
          (s = sentinelDescription ∨
            ∃ img ∈ page_data.images, s = img.educational_description)) := by
  have himg : page_data.images.isEmpty = false := by
    cases hi : page_data.images with
    | nil => exact absurd hi h
    | cons i it => rfl
  constructor
  · intro ex hex v hv
    unfold enhanceExamplesWithVisualContent at hex
    rw [himg] at hex
    simp only [Bool.false_eq_true, if_false, List.mem_map] at hex
    obtain ⟨ex0, -, rfl⟩ := hex
    simp only [List.mem_map] at hv
    obtain ⟨v0, -, rfl⟩ := hv
    exact enhanceMentionExample_spec page_data.images v0
  · intro ex hex v hv
    unfold enhanceExercisesWithVisualContent at hex
    rw [himg] at hex
    simp only [Bool.false_eq_true, if_false, List.mem_map] at hex
    obtain ⟨ex0, -, rfl⟩ := hex
    simp only [List.mem_map] at hv
    obtain ⟨v0, -, rfl⟩ := hv
    exact enhanceMentionExercise_spec page_data.images v0

/-- Witness for the amended C4: one record with one unresolved mention on a
page with one detected image — after enhancement every mention carries a
non-null description. -/
theorem C4_enhancement_witness :
    (∀ ex ∈ enhanceExamplesWithVisualContent
        [⟨[⟨"આકૃતિ 3.1".data, "આકૃતિ".data, none⟩]⟩] ⟨1, [], [⟨"plain text".data⟩]⟩,
        ∀ v ∈ ex.mentioned_visuals, ∃ s, v.full_description = some s ∧
          (s = sentinelDescription ∨
            ∃ img ∈ (⟨1, [], [⟨"plain text".data⟩]⟩ : Page).images,
              s = img.educational_description)) ∧
      (∀ ex ∈ enhanceExercisesWithVisualContent
        [⟨[⟨"આકૃતિ 3.1".data, "આકૃતિ".data, none⟩]⟩] ⟨1, [], [⟨"plain text".data⟩]⟩,
        ∀ v ∈ ex.mentioned_visuals, ∃ s, v.full_description = some s ∧
          (s = sentinelDescription ∨
            ∃ img ∈ (⟨1, [], [⟨"plain text".data⟩]⟩ : Page).images,
              s = img.educational_description)) :=
  C4_enhancement_nonnull [⟨[⟨"આકૃતિ 3.1".data, "આકૃતિ".data, none⟩]⟩]
    [⟨[⟨"આકૃતિ 3.1".data, "આકૃતિ".data, none⟩]⟩] ⟨1, [], [⟨"plain text".data⟩]⟩
    (by decide)

/-! ### C5 -/

/-- One step of the topic fold. -/
theorem topicFold_cons (part : List Char) (rest : List (List Char)) (n : Nat)
    (acc : List Int) :
    topicFold (part :: rest) n acc =
      topicFold rest n
        (match pyInt (pyStrip part) with
         | some num =>
           if 1 ≤ num ∧ num ≤ (n : Int) ∧ num ∉ acc then acc ++ [num] else acc
         | none => acc) := rfl

/-- The topic fold preserves the range bound and freedom from duplicates. -/
theorem topicFold_invariant (n : Nat) :
    ∀ (parts : List (List Char)) (acc : List Int),
      (∀ num ∈ acc, 1 ≤ num ∧ num ≤ (n : Int)) → acc.Nodup →
      (∀ num ∈ topicFold parts n acc, 1 ≤ num ∧ num ≤ (n : Int)) ∧
        (topicFold parts n acc).Nodup
  | [], acc, h1, h2 => ⟨h1, h2⟩
  | part :: rest, acc, h1, h2 => by
    rw [topicFold_cons]
    cases hp : pyInt (pyStrip part) with
    | none => exact topicFold_invariant n rest acc h1 h2
    | some num =>
      simp only []
      by_cases hc : 1 ≤ num ∧ num ≤ (n : Int) ∧ num ∉ acc
      · rw [if_pos hc]
        refine topicFold_invariant n rest (acc ++ [num]) ?_ ?_
        · intro m hm
          rcases List.mem_append.1 hm with hm | hm
          · exact h1 m hm
          · rcases List.mem_singleton.1 hm with rfl
            exact ⟨hc.1, hc.2.1⟩
        · refine List.nodup_append.2 ⟨h2, List.nodup_singleton num, ?_⟩
          intro a ha hb
          rcases List.mem_singleton.1 hb with rfl
          exact hc.2.2 ha
      · rw [if_neg hc]
        exact topicFold_invariant n rest acc h1 h2

/-- Parts whose stripped text does not parse as an integer leave the fold
unchanged, so filtering them away first gives the same result. -/
theorem topicFold_drops_malformed (n : Nat) :
    ∀ (parts : List (List Char)) (acc : List Int),
      topicFold parts n acc =
        topicFold (parts.filter fun part => (pyInt (pyStrip part)).isSome) n acc
  | [], _ => rfl
  | part :: rest, acc => by
    rw [topicFold_cons, List.filter_cons]
    cases hp : pyInt (pyStrip part) with
    | none =>
      simp only [hp, Option.isSome_none, Bool.false_eq_true, if_false]
      exact topicFold_drops_malformed n rest acc
    | some num =>
      simp only [hp, Option.isSome_some, if_true]
      rw [topicFold_cons]
      simp only [hp]
      exact topicFold_drops_malformed n rest _

/-- C5: for every collaborator response text and every topic list, the
stored topic list contains only integers in `[1, topicCount]`, contains no
duplicate, and every comma-separated token that does not parse as an
integer is silently dropped (filtering the malformed tokens away first
yields the same list). -/
theorem C5_topic_numbers_valid (response_text : List Char)
    (topics_list : List (List Char)) :
    (∀ num ∈ parseTopicNumbers response_text topics_list,
        1 ≤ num ∧ num ≤ (topics_list.length : Int)) ∧
      (parseTopicNumbers response_text topics_list).Nodup ∧
      parseTopicNumbers response_text topics_list =
        topicFold ((splitOnComma response_text).filter fun part =>
          (pyInt (pyStrip part)).isSome) topics_list.length [] := by
  have h := topicFold_invariant topics_list.length (splitOnComma response_text) []
    (by intro m hm; exact absurd hm (List.not_mem_nil m)) List.nodup_nil
  exact ⟨h.1, h.2,
    topicFold_drops_malformed topics_list.length (splitOnComma response_text) []⟩

/-! ### C6 -/

/-- C6: a page whose text has fewer than 100 characters produces no question
records and leaves the collaborator call counter untouched, in both the
example and the exercise extraction pipelines — the result is `([], calls)`
for every possible collaborator behaviour, so the collaborator is never
invoked for such a page. -/
theorem C6_short_pages_skipped
    (aiExamples aiExercises : List Char → Nat → List QuestionRecord × Nat)
    (page : Page) (calls1 calls2 : Nat) (h : page.text.length < 100) :
    processExamplePage aiExamples page calls1 = ([], calls1) ∧
      processExercisePage aiExercises page calls2 = ([], calls2) := by
  constructor
  · unfold processExamplePage
    rw [if_pos h]
  · unfold processExercisePage
    rw [if_pos h]

/-- Witness for C6 at scenario A of the specification: a page with text
length 50 yields an empty result and an unchanged counter under a
collaborator that would otherwise increment the counter. -/
theorem C6_short_pages_witness :
    (List.replicate 50 'a').length < 100 ∧
      processExamplePage (fun _ c => ([], c + 1)) ⟨1, List.replicate 50 'a', []⟩ 0 =
        ([], 0) ∧
      processExercisePage (fun _ c => ([], c + 1)) ⟨1, List.replicate 50 'a', []⟩ 0 =
        ([], 0) :=
  ⟨by decide,
    (C6_short_pages_skipped (fun _ c => ([], c + 1)) (fun _ c => ([], c + 1))
      ⟨1, List.replicate 50 'a', []⟩ 0 0 (by decide)).1,
    (C6_short_pages_skipped (fun _ c => ([], c + 1)) (fun _ c => ([], c + 1))
      ⟨1, List.replicate 50 'a', []⟩ 0 0 (by decide)).2⟩

/-! ### C7 -/

/-- C7: when every page's summary is absent or equal to the sentinel
`"સારાંશ ઉપલબ્ધ નથી"`, chapter analysis returns the fixed error chapter
summary and leaves the collaborator call counter unchanged, for every
possible collaborator behaviour — the collaborator is never invoked. -/
theorem C7_no_valid_summaries (ai : List Char → Option (List Char))
    (pages_data : List SummaryPage) (calls : Nat)
    (h : ∀ p ∈ pages_data,
      p.page_summary = none ∨ p.page_summary = some sentinelSummary) :
    analyzeChapter ai pages_data calls = (errorChapterSummary, calls) := by
  have hempty : (pages_data.filterMap fun page =>
      match page.page_summary with
      | some s =>
        if s ≠ sentinelSummary then
          some ("પાનું ".data ++ (Nat.repr page.page_number).data ++ ": ".data ++ s)
        else none
      | none => none) = [] := by
    rw [List.filterMap_eq_nil_iff]
    intro p hp
    rcases h p hp with h' | h' <;> simp [h']
  unfold analyzeChapter
  rw [hempty]
  rfl

/-- Witness for C7 at scenario D of the specification: one page without a
summary and one page with the sentinel summary — the analysis returns the
fixed error summary and the counter stays at 7, although the collaborator
would answer if asked. -/
theorem C7_no_valid_summaries_witness :
    analyzeChapter (fun _ => some "ok".data) [⟨1, none⟩, ⟨2, some sentinelSummary⟩] 7 =
      (errorChapterSummary, 7) :=
  C7_no_valid_summaries (fun _ => some "ok".data) [⟨1, none⟩, ⟨2, some sentinelSummary⟩]
    7 (by decide)

end QPG
